import Mathlib

/-!
Verification of the subscription-feed reconciliation engine of
`io-functions-services` (`src/GetSubscriptionsFeed/handler.ts`).

The handler receives a date string `YYYY-MM-DD`, checks that the requested
day's data is already available (data for day D becomes available at
midnight UTC of day D+1), queries three partitions of a paginated table
store (profile creations, service subscriptions, service unsubscriptions)
and reconciles the three user-identifier sets into a subscriptions feed.

Identifiers (hashed fiscal codes) are modelled as `String`.  A JavaScript
`Set` is modelled as a `List String` without duplicates kept in insertion
order; `Set.prototype.has` becomes `List.contains` and `Set.prototype.forEach`
with `Array.prototype.push` becomes `List.filter`/append, which preserves the
code's iteration-order semantics exactly.
-/

deriving instance DecidableEq for Except

namespace SubscriptionsFeedSpec

/-- Gregorian leap-year test, as used by JavaScript `Date` (proleptic
Gregorian calendar). -/
def isLeapYear (y : Nat) : Prop :=
  y % 4 = 0 ∧ (y % 100 ≠ 0 ∨ y % 400 = 0)

instance (y : Nat) : Decidable (isLeapYear y) := by
  unfold isLeapYear
  infer_instance

/-- Number of days of month `m` (1-based) of year `y`. -/
def daysInMonth (y m : Nat) : Nat :=
  if m = 2 then (if isLeapYear y then 29 else 28)
  else if m = 4 ∨ m = 6 ∨ m = 9 ∨ m = 11 then 30
  else 31

/-- A civil (proleptic Gregorian) calendar date. -/
structure CivilDate where
  year : Nat
  month : Nat
  day : Nat
deriving DecidableEq, Repr

/-- A real calendar date: month in 1..12, day in 1..daysInMonth. -/
def CivilDate.Valid (dt : CivilDate) : Prop :=
  1 ≤ dt.month ∧ dt.month ≤ 12 ∧ 1 ≤ dt.day ∧ dt.day ≤ daysInMonth dt.year dt.month

instance (dt : CivilDate) : Decidable dt.Valid := by
  unfold CivilDate.Valid
  infer_instance

/-- Days since the Unix epoch 1970-01-01 of a civil date (the standard
civil-from-days inverse used by JavaScript date arithmetic, restricted to
nonnegative years). -/
def daysFromCivil (dt : CivilDate) : Int :=
  let yAdj := if dt.month ≤ 2 then dt.year - 1 else dt.year
  let mp := if 2 < dt.month then dt.month - 3 else dt.month + 9
  (((yAdj / 400) * 146097
    + ((yAdj % 400) * 365 + (yAdj % 400) / 4 - (yAdj % 400) / 100
      + ((153 * mp + 2) / 5 + dt.day - 1)) : Nat) : Int) - 719468

/-- Epoch milliseconds of midnight UTC of a civil date: the value of
`new Date("YYYY-MM-DDT00:00:00Z").getTime()` for a valid date. -/
def epochMsOfDate (dt : CivilDate) : Int :=
  86400000 * daysFromCivil dt

/-- The civil day after a civil date. -/
def nextDay (dt : CivilDate) : CivilDate :=
  if dt.day < daysInMonth dt.year dt.month then ⟨dt.year, dt.month, dt.day + 1⟩
  else if dt.month < 12 then ⟨dt.year, dt.month + 1, 1⟩
  else ⟨dt.year + 1, 1, 1⟩

/-- Decimal value of a nonempty all-digit character group; `none`
otherwise. -/
def digitsToNat (cs : List Char) : Option Nat :=
  if cs ≠ [] ∧ cs.all Char.isDigit = true then
    some (cs.foldl (fun n c => 10 * n + (c.toNat - 48)) 0)
  else none

/-- Parse a `YYYY-MM-DD` string into a civil date; `none` when the string
is not of that shape or the components are not a real calendar date,
mirroring `new Date(s)` producing an invalid date (`NaN` time value). -/
def parseShortDate (s : String) : Option CivilDate :=
  match s.data.splitOn '-' with
  | [ys, ms, ds] =>
    match digitsToNat ys, digitsToNat ms, digitsToNat ds with
    | some y, some m, some d =>
      if ys.length = 4 ∧ ms.length = 2 ∧ ds.length = 2
          ∧ CivilDate.Valid ⟨y, m, d⟩ then
        some ⟨y, m, d⟩
      else none
    | _, _, _ => none
  | _ => none

/-- The time value of `new Date(s + "T00:00:00Z")` in the handler:
epoch milliseconds for a valid date string, `none` standing for `NaN`. -/
def jsDateParseMs (s : String) : Option Int :=
  (parseShortDate s).map epochMsOfDate

/-- The availability gate of `GetSubscriptionsFeedHandler` (handler.ts
lines 86-97): `availableSince` is the parsed date's midnight plus
24*60*60*1000 ms, and the request is rejected with a not-found response
carrying that instant when `now < availableSince`.  When the date string
does not parse, `availableSince` is `NaN` and the JavaScript comparison
`Date.now() < NaN` is false, so the gate passes. -/
def checkAvailable (subscriptionsDateUTC : String) (now : Int) : Except Int Unit :=
  match jsDateParseMs subscriptionsDateUTC with
  | some t =>
    if now < t + 24 * 60 * 60 * 1000 then Except.error (t + 24 * 60 * 60 * 1000)
    else Except.ok ()
  | none => Except.ok ()

/-- A failure fetching a page from the table store. -/
structure StoreQueryError where
  cause : String
deriving DecidableEq, Repr

/-- One event row of the subscriptions-feed table: partition key, opaque
row key and the pseudonymous user identifier (hashed fiscal code). -/
structure UserRecord where
  partitionKey : String
  rowKey : String
  userId : String
deriving DecidableEq, Repr

/-- Insert an identifier into a JavaScript-`Set`-like list: appended at the
end when absent, left alone when already present. -/
def insertId (s : List String) (x : String) : List String :=
  if s.contains x then s else s ++ [x]

/-- Modelled from the spec: `queryUsers` of `src/GetSubscriptionsFeed/utils.ts`
is not under `src/`; per §4.1-§4.2 it drives the paged query to exhaustion and
accumulates every record's user identifier into a set, and any page-fetch
failure fails the whole collection with the store error (no partial set).
The paginated scan is modelled as the list of page results the store would
deliver for the queried partition key. -/
def queryUsers (pages : List (Except StoreQueryError (List UserRecord))) :
    Except StoreQueryError (List String) :=
  pages.foldl
    (fun acc page =>
      match acc, page with
      | Except.error e, _ => Except.error e
      | Except.ok _, Except.error e => Except.error e
      | Except.ok s, Except.ok records =>
        Except.ok (records.foldl (fun s r => insertId s r.userId) s))
    (Except.ok [])

/-- The `subscriptions` array built by handler.ts lines 128-143: every
profile-creation user not in the unsubscription set, followed by every
service-subscription user not in the profile-creation set. -/
def subscriptions (profileSubscriptionsSet serviceSubscriptionsSet
    serviceUnsubscriptionsSet : List String) : List String :=
  profileSubscriptionsSet.filter (fun ps => !serviceUnsubscriptionsSet.contains ps)
    ++ serviceSubscriptionsSet.filter (fun ss => !profileSubscriptionsSet.contains ss)

/-- The `unsubscriptions` array built by handler.ts lines 145-153: every
service-unsubscription user not in the profile-creation set. -/
def unsubscriptions (profileSubscriptionsSet
    serviceUnsubscriptionsSet : List String) : List String :=
  serviceUnsubscriptionsSet.filter (fun su => !profileSubscriptionsSet.contains su)

/-- The output payload (handler.ts lines 155-159). -/
structure SubscriptionsFeed where
  dateUTC : String
  subscriptions : List String
  unsubscriptions : List String
deriving DecidableEq, Repr

/-- The possible outcomes of the handler that the reconciliation core can
produce: premature-request rejection carrying the availability instant,
store-query failure, or the feed. -/
inductive HandlerResponse where
  | notFound (availableSinceInstant : Int)
  | errorQuery (e : StoreQueryError)
  | success (feed : SubscriptionsFeed)
deriving DecidableEq, Repr

/-- The partition key of handler.ts line 108: profile-creation events of the
requested day. -/
def profileSubscriptionsKey (subscriptionsDateUTC : String) : String :=
  "P-" ++ subscriptionsDateUTC ++ "-S"

/-- The partition key of handler.ts line 111: subscribe events of the
requested day, scoped to the caller's service. -/
def serviceSubscriptionsKey (subscriptionsDateUTC serviceId : String) : String :=
  "S-" ++ subscriptionsDateUTC ++ "-" ++ serviceId ++ "-S"

/-- The partition key of handler.ts line 114: unsubscribe events of the
requested day, scoped to the caller's service. -/
def serviceUnsubscriptionsKey (subscriptionsDateUTC serviceId : String) : String :=
  "S-" ++ subscriptionsDateUTC ++ "-" ++ serviceId ++ "-U"

/-- The table store, as seen by the handler: for a partition key, the
sequence of page results its paginated scan delivers. -/
def Store : Type :=
  String → List (Except StoreQueryError (List UserRecord))

/-- The three queries and the reconciliation (handler.ts lines 107-161):
the three `queryUsers` calls are awaited in order, a failed one aborts the
request, and the two output arrays are built from the three sets.  The
second component records which partition keys were actually queried. -/
def runFeedQueries (store : Store) (subscriptionsDateUTC serviceId : String) :
    HandlerResponse × List String :=
  let profileKey := profileSubscriptionsKey subscriptionsDateUTC
  let subKey := serviceSubscriptionsKey subscriptionsDateUTC serviceId
  let unsubKey := serviceUnsubscriptionsKey subscriptionsDateUTC serviceId
  match queryUsers (store profileKey) with
  | Except.error e => (HandlerResponse.errorQuery e, [profileKey])
  | Except.ok profileSubscriptionsSet =>
    match queryUsers (store subKey) with
    | Except.error e => (HandlerResponse.errorQuery e, [profileKey, subKey])
    | Except.ok serviceSubscriptionsSet =>
      match queryUsers (store unsubKey) with
      | Except.error e => (HandlerResponse.errorQuery e, [profileKey, subKey, unsubKey])
      | Except.ok serviceUnsubscriptionsSet =>
        (HandlerResponse.success
          { dateUTC := subscriptionsDateUTC
            subscriptions := subscriptions profileSubscriptionsSet
              serviceSubscriptionsSet serviceUnsubscriptionsSet
            unsubscriptions := unsubscriptions profileSubscriptionsSet
              serviceUnsubscriptionsSet },
         [profileKey, subKey, unsubKey])

/-- `GetSubscriptionsFeedHandler` (handler.ts lines 83-162): the availability
gate runs first and a premature request returns a not-found response without
touching the store; otherwise the three partitions are queried and
reconciled.  The second component is the trace of queried partition keys. -/
def GetSubscriptionsFeedHandler (store : Store)
    (subscriptionsDateUTC serviceId : String) (now : Int) :
    HandlerResponse × List String :=
  match checkAvailable subscriptionsDateUTC now with
  | Except.error availableSince => (HandlerResponse.notFound availableSince, [])
  | Except.ok () => runFeedQueries store subscriptionsDateUTC serviceId

/-- The §3 partition-key template `{Prefix}-{Date}-{Scope}-{EventType}`,
with absent components omitted: the present components joined by `-`. -/
def mkPartitionKey : List String → String
  | [] => ""
  | [p] => p
  | p :: rest => p ++ "-" ++ mkPartitionKey rest

/-- Membership in the `subscriptions` output array is exactly membership in
`(ProfileSet − UnsubSet) ∪ (SubSet − ProfileSet)`. -/
theorem mem_subscriptions_iff (P S U : List String) (x : String) :
    x ∈ subscriptions P S U ↔ (x ∈ P ∧ x ∉ U) ∨ (x ∈ S ∧ x ∉ P) := by
  simp [subscriptions, List.mem_filter, List.mem_append]

/-- Membership in the `unsubscriptions` output array is exactly membership
in `UnsubSet − ProfileSet`. -/
theorem mem_unsubscriptions_iff (P U : List String) (x : String) :
    x ∈ unsubscriptions P U ↔ x ∈ U ∧ x ∉ P := by
  simp [unsubscriptions, List.mem_filter]

/-- A successfully parsed date string denotes a real calendar date. -/
theorem parseShortDate_valid {s : String} {dt : CivilDate}
    (h : parseShortDate s = some dt) : dt.Valid := by
  unfold parseShortDate at h
  split at h
  · split at h
    · split at h
      · obtain ⟨rfl⟩ := Option.some_injective _ h
        simp_all
      · exact absurd h (by simp)
    all_goals exact absurd h (by simp)
  · exact absurd h (by simp)

/-- Incrementing the day within a month advances the epoch day count by
one. -/
theorem daysFromCivil_add_one (y m d : Nat) (hd1 : 1 ≤ d) :
    daysFromCivil ⟨y, m, d + 1⟩ = daysFromCivil ⟨y, m, d⟩ + 1 := by
  simp only [daysFromCivil]
  split_ifs <;> omega

set_option maxHeartbeats 1600000 in
/-- The civil successor of a valid date (of a positive year) is one epoch
day later: the calendar increment and the day-count increment agree. -/
theorem daysFromCivil_nextDay (y m d : Nat) (hy : 1 ≤ y) (hm1 : 1 ≤ m)
    (hm2 : m ≤ 12) (hd1 : 1 ≤ d) (hd2 : d ≤ daysInMonth y m) :
    daysFromCivil (nextDay ⟨y, m, d⟩) = daysFromCivil ⟨y, m, d⟩ + 1 := by
  by_cases hlt : d < daysInMonth y m
  · simp only [nextDay]
    rw [if_pos hlt]
    exact daysFromCivil_add_one y m d hd1
  · have hd : d = daysInMonth y m := le_antisymm hd2 (le_of_not_lt hlt)
    subst hd
    by_cases hm : m = 2
    · subst hm
      by_cases hl : isLeapYear y
      · have h29 : daysInMonth y 2 = 29 := by simp [daysInMonth, if_pos hl]
        have hnext : nextDay ⟨y, 2, 29⟩ = ⟨y, 3, 1⟩ := by simp [nextDay, h29]
        rw [h29, hnext]
        simp only [isLeapYear] at hl
        simp only [daysFromCivil]
        norm_num
        omega
      · have h28 : daysInMonth y 2 = 28 := by simp [daysInMonth, hl]
        have hnext : nextDay ⟨y, 2, 28⟩ = ⟨y, 3, 1⟩ := by simp [nextDay, h28]
        rw [h28, hnext]
        simp only [isLeapYear] at hl
        simp only [daysFromCivil]
        norm_num
        omega
    · interval_cases m <;>
        first
        | exact absurd rfl hm
        | (simp only [nextDay, daysInMonth, daysFromCivil, isLeapYear]
           norm_num
           omega)

/-- Midnight of the civil successor day is midnight of the day plus
24 hours of milliseconds. -/
theorem epochMsOfDate_nextDay (dt : CivilDate) (hy : 1 ≤ dt.year)
    (hv : dt.Valid) : epochMsOfDate (nextDay dt) = epochMsOfDate dt + 86400000 := by
  obtain ⟨y, m, d⟩ := dt
  obtain ⟨hm1, hm2, hd1, hd2⟩ := hv
  simp only [epochMsOfDate, daysFromCivil_nextDay y m d hy hm1 hm2 hd1 hd2]
  ring

/-- C1: for every triple of input sets, the reconciliation computes the
subscriptions output as `(ProfileSet − UnsubSet) ∪ (SubSet − ProfileSet)`
and the unsubscriptions output as `UnsubSet − ProfileSet`; in particular,
for `ProfileSet = {a,b}`, `SubSet = {b,c}`, `UnsubSet = {b}` it yields
`Subscriptions = {a,c}` and `Unsubscriptions = ∅`. -/
theorem C1_reconciliation_set_algebra :
    (∀ (profileSet subSet unsubSet : List String) (x : String),
      (x ∈ subscriptions profileSet subSet unsubSet ↔
        (x ∈ profileSet ∧ x ∉ unsubSet) ∨ (x ∈ subSet ∧ x ∉ profileSet)) ∧
      (x ∈ unsubscriptions profileSet unsubSet ↔
        x ∈ unsubSet ∧ x ∉ profileSet)) ∧
    subscriptions ["a", "b"] ["b", "c"] ["b"] = ["a", "c"] ∧
    unsubscriptions ["a", "b"] ["b"] = [] := by
  refine ⟨fun P S U x =>
    ⟨mem_subscriptions_iff P S U x, mem_unsubscriptions_iff P U x⟩, ?_, ?_⟩ <;> decide

/-- C2 counterexample: the claim that the two outputs are disjoint for
every triple of input sets is false at `ProfileSet = {}`, `SubSet = {x}`,
`UnsubSet = {x}`, where `x` appears in both outputs. -/
theorem C2_disjointness_counterexample :
    "x" ∈ subscriptions [] ["x"] ["x"] ∧ "x" ∈ unsubscriptions [] ["x"] := by
  decide

/-- C2 (amended): the subscriptions and unsubscriptions outputs are
disjoint for every triple of input sets in which every user appearing in
both `SubSet` and `UnsubSet` also appears in `ProfileSet` (i.e. absent the
same-day subscribe-and-unsubscribe-without-profile anomaly of §9). -/
theorem C2_disjoint_unless_same_day_anomaly (profileSet subSet unsubSet : List String)
    (h : ∀ x, x ∈ subSet → x ∈ unsubSet → x ∈ profileSet) :
    ∀ x, x ∈ subscriptions profileSet subSet unsubSet →
      x ∉ unsubscriptions profileSet unsubSet := by
  intro x hs hu
  rw [mem_subscriptions_iff] at hs
  rw [mem_unsubscriptions_iff] at hu
  rcases hs with ⟨-, hnu⟩ | ⟨hS, hnp⟩
  · exact hnu hu.1
  · exact hnp (h x hS hu.1)

/-- C2 witness: the amended disjointness at the concrete triple
`ProfileSet = {a,b}`, `SubSet = {b,c}`, `UnsubSet = {b}`. -/
theorem C2_disjoint_witness :
    (∀ x, x ∈ ["b", "c"] → x ∈ ["b"] → x ∈ ["a", "b"]) ∧
    ("a" ∈ subscriptions ["a", "b"] ["b", "c"] ["b"] →
      "a" ∉ unsubscriptions ["a", "b"] ["b"]) :=
  ⟨by decide,
   C2_disjoint_unless_same_day_anomaly ["a", "b"] ["b", "c"] ["b"] (by decide) "a"⟩

/-- C3: for `ProfileSet = {}`, `SubSet = {x}`, `UnsubSet = {x}` — a user
who both subscribed and unsubscribed on the same day without creating a
profile that day — the reconciliation reports `x` both in the
subscriptions output and in the unsubscriptions output. -/
theorem C3_same_day_sub_unsub_double_report :
    subscriptions [] ["x"] ["x"] = ["x"] ∧ unsubscriptions [] ["x"] = ["x"] := by
  decide

/-- C4: the availability gate fails with the not-found-style outcome
carrying the availability instant exactly when `now` is strictly before
midnight UTC of the civil day after the requested date; concretely, a
request for 2021-05-01 at 2021-05-01T23:00:00Z fails with availability
instant 2021-05-02T00:00:00Z, and the same request at
2021-05-02T00:00:01Z passes the gate. -/
theorem C4_availability_gate (s : String) (dt : CivilDate) (now : Int)
    (hparse : parseShortDate s = some dt) (hy : 1 ≤ dt.year) :
    (checkAvailable s now =
      if now < epochMsOfDate (nextDay dt) then
        Except.error (epochMsOfDate (nextDay dt))
      else Except.ok ()) ∧
    checkAvailable "2021-05-01" (epochMsOfDate ⟨2021, 5, 1⟩ + 23 * 3600000) =
      Except.error (epochMsOfDate ⟨2021, 5, 2⟩) ∧
    checkAvailable "2021-05-01" (epochMsOfDate ⟨2021, 5, 2⟩ + 1000) =
      Except.ok () := by
  refine ⟨?_, by decide, by decide⟩
  have hv := parseShortDate_valid hparse
  have hnext := epochMsOfDate_nextDay dt hy hv
  simp only [checkAvailable, jsDateParseMs, hparse, Option.map_some']
  rw [hnext]
  norm_num

/-- C4 witness: the gate characterization applied at date 2021-05-01 and
`now = 0`. -/
theorem C4_availability_gate_witness :
    parseShortDate "2021-05-01" = some ⟨2021, 5, 1⟩ ∧
    checkAvailable "2021-05-01" 0 =
      (if (0 : Int) < epochMsOfDate (nextDay ⟨2021, 5, 1⟩) then
        Except.error (epochMsOfDate (nextDay ⟨2021, 5, 1⟩))
      else Except.ok ()) :=
  ⟨by decide,
   (C4_availability_gate "2021-05-01" ⟨2021, 5, 1⟩ 0 (by decide) (by decide)).1⟩

/-- C5 counterexample: the claim that the profile-creation partition key
is `P-{date}` (event type absent) is false — the code queries
`P-{date}-S`. -/
theorem C5_profile_key_counterexample :
    profileSubscriptionsKey "2021-05-01" ≠ mkPartitionKey ["P", "2021-05-01"] := by
  decide

/-- C5 (amended): the subscribe-event key is `S-{date}-{serviceId}-S` and
the unsubscribe-event key is `S-{date}-{serviceId}-U`, matching the §3
template; the profile-creation key has the scope absent but carries the
event type `S`, i.e. it is `P-{date}-S`, not `P-{date}`. -/
theorem C5_partition_keys_amended (date serviceId : String) :
    serviceSubscriptionsKey date serviceId = mkPartitionKey ["S", date, serviceId, "S"] ∧
    serviceUnsubscriptionsKey date serviceId = mkPartitionKey ["S", date, serviceId, "U"] ∧
    profileSubscriptionsKey date = mkPartitionKey ["P", date, "S"] := by
  refine ⟨?_, ?_, ?_⟩ <;>
    simp [serviceSubscriptionsKey, serviceUnsubscriptionsKey,
      profileSubscriptionsKey, mkPartitionKey, String.append_assoc]

/-- C6: if any of the three store fetches fails with a `StoreQueryError`,
the whole call fails with that error — the partial trace shows which
queries had been issued — and no feed, in particular no partial feed, is
ever returned while any fetch is failed. -/
theorem C6_store_failure_aborts (store : Store) (s sid : String) (now : Int)
    (e : StoreQueryError) (hgate : checkAvailable s now = Except.ok ()) :
    (queryUsers (store (profileSubscriptionsKey s)) = Except.error e →
      GetSubscriptionsFeedHandler store s sid now =
        (HandlerResponse.errorQuery e, [profileSubscriptionsKey s])) ∧
    (∀ profileSet,
      queryUsers (store (profileSubscriptionsKey s)) = Except.ok profileSet →
      queryUsers (store (serviceSubscriptionsKey s sid)) = Except.error e →
      GetSubscriptionsFeedHandler store s sid now =
        (HandlerResponse.errorQuery e,
         [profileSubscriptionsKey s, serviceSubscriptionsKey s sid])) ∧
    (∀ profileSet subSet,
      queryUsers (store (profileSubscriptionsKey s)) = Except.ok profileSet →
      queryUsers (store (serviceSubscriptionsKey s sid)) = Except.ok subSet →
      queryUsers (store (serviceUnsubscriptionsKey s sid)) = Except.error e →
      GetSubscriptionsFeedHandler store s sid now =
        (HandlerResponse.errorQuery e,
         [profileSubscriptionsKey s, serviceSubscriptionsKey s sid,
          serviceUnsubscriptionsKey s sid])) ∧
    ((queryUsers (store (profileSubscriptionsKey s)) = Except.error e ∨
      queryUsers (store (serviceSubscriptionsKey s sid)) = Except.error e ∨
      queryUsers (store (serviceUnsubscriptionsKey s sid)) = Except.error e) →
      ∀ feed, (GetSubscriptionsFeedHandler store s sid now).1 ≠
        HandlerResponse.success feed) := by
  refine ⟨?_, ?_, ?_, ?_⟩
  · intro h1
    simp only [GetSubscriptionsFeedHandler, hgate, runFeedQueries, h1]
  · intro profileSet h1 h2
    simp only [GetSubscriptionsFeedHandler, hgate, runFeedQueries, h1, h2]
  · intro profileSet subSet h1 h2 h3
    simp only [GetSubscriptionsFeedHandler, hgate, runFeedQueries, h1, h2, h3]
  · intro hor feed
    simp only [GetSubscriptionsFeedHandler, hgate, runFeedQueries]
    rcases h1 : queryUsers (store (profileSubscriptionsKey s)) with e1 | p1
    · simp
    · rcases h2 : queryUsers (store (serviceSubscriptionsKey s sid)) with e2 | p2
      · simp
      · rcases h3 : queryUsers (store (serviceUnsubscriptionsKey s sid)) with e3 | p3
        · simp
        · rcases hor with h | h | h <;> simp_all

/-- C6 witness: a page-fetch failure on the second page of the
subscribe-event scan aborts the whole call with that store error even
though the profile-creation scan succeeded. -/
theorem C6_store_failure_witness :
    GetSubscriptionsFeedHandler
      (fun k =>
        if k = serviceSubscriptionsKey "2021-05-01" "svc" then
          [Except.ok [⟨k, "r1", "u1"⟩], Except.error ⟨"page 2 failed"⟩]
        else [Except.ok [⟨k, "r0", "u0"⟩]])
      "2021-05-01" "svc" 1619913600000 =
      (HandlerResponse.errorQuery ⟨"page 2 failed"⟩,
       [profileSubscriptionsKey "2021-05-01",
        serviceSubscriptionsKey "2021-05-01" "svc"]) :=
  (C6_store_failure_aborts
      (fun k =>
        if k = serviceSubscriptionsKey "2021-05-01" "svc" then
          [Except.ok [⟨k, "r1", "u1"⟩], Except.error ⟨"page 2 failed"⟩]
        else [Except.ok [⟨k, "r0", "u0"⟩]])
      "2021-05-01" "svc" 1619913600000 ⟨"page 2 failed"⟩
      (by decide)).2.1 ["u0"] (by decide) (by decide)

/-- C7: for input sets without duplicates, neither the subscriptions
output nor the unsubscriptions output contains a duplicate identifier,
and a newly created profile that also logs an explicit subscribe event
(and no unsubscribe) appears exactly once in subscriptions. -/
theorem C7_no_duplicate_identifiers (P S U : List String)
    (hP : P.Nodup) (hS : S.Nodup) (hU : U.Nodup) :
    (subscriptions P S U).Nodup ∧ (unsubscriptions P U).Nodup ∧
    (∀ x, x ∈ P → x ∈ S → x ∉ U → (subscriptions P S U).count x = 1) := by
  have hsub : (subscriptions P S U).Nodup := by
    apply List.Nodup.append (hP.filter _) (hS.filter _)
    intro x hx1 hx2
    have hmem : x ∈ P := (List.mem_filter.mp hx1).1
    have hcond := (List.mem_filter.mp hx2).2
    simp at hcond
    exact hcond hmem
  refine ⟨hsub, hU.filter _, ?_⟩
  intro x hxP hxS hxU
  have hmem : x ∈ subscriptions P S U :=
    (mem_subscriptions_iff P S U x).mpr (Or.inl ⟨hxP, hxU⟩)
  exact List.count_eq_one_of_mem hsub hmem

/-- C7 witness: no duplicates at the concrete triple `{a,b}`, `{b,c}`,
`{b}`, where `b` created a profile and also logged a subscribe event. -/
theorem C7_no_duplicates_witness :
    (subscriptions ["a", "b"] ["b", "c"] ["b"]).Nodup ∧
    (unsubscriptions ["a", "b"] ["b"]).Nodup ∧
    (∀ x, x ∈ ["a", "b"] → x ∈ ["b", "c"] → x ∉ ["b"] →
      (subscriptions ["a", "b"] ["b", "c"] ["b"]).count x = 1) :=
  C7_no_duplicate_identifiers ["a", "b"] ["b", "c"] ["b"]
    (by decide) (by decide) (by decide)

/-- C8: whenever `now` is strictly before midnight UTC of the day after
the requested date, the handler returns the not-found response without
issuing any query to the store — the trace of queried partition keys is
empty. -/
theorem C8_gate_runs_before_any_scan (store : Store) (s sid : String)
    (now t : Int) (hparse : jsDateParseMs s = some t)
    (hnow : now < t + 24 * 60 * 60 * 1000) :
    GetSubscriptionsFeedHandler store s sid now =
      (HandlerResponse.notFound (t + 24 * 60 * 60 * 1000), []) := by
  simp only [GetSubscriptionsFeedHandler, checkAvailable, hparse]
  rw [if_pos hnow]

/-- C8 witness: a premature request for 2021-05-01 at 2021-05-01T23:00:00Z
issues zero store queries. -/
theorem C8_gate_witness :
    GetSubscriptionsFeedHandler (fun k => [Except.ok [⟨k, "r", "u"⟩]])
      "2021-05-01" "svc" 1619910000000 =
      (HandlerResponse.notFound (1619827200000 + 24 * 60 * 60 * 1000), []) :=
  C8_gate_runs_before_any_scan (fun k => [Except.ok [⟨k, "r", "u"⟩]])
    "2021-05-01" "svc" 1619910000000 1619827200000 (by decide) (by decide)

/-- C9: reconciliation is a pure function of the store contents at the
three queried partition keys — two runs for the same date and service
against stores agreeing on those keys produce identical results. -/
theorem C9_idempotent_on_fixed_store (store1 store2 : Store) (s sid : String)
    (now : Int)
    (h1 : store1 (profileSubscriptionsKey s) = store2 (profileSubscriptionsKey s))
    (h2 : store1 (serviceSubscriptionsKey s sid) = store2 (serviceSubscriptionsKey s sid))
    (h3 : store1 (serviceUnsubscriptionsKey s sid) = store2 (serviceUnsubscriptionsKey s sid)) :
    GetSubscriptionsFeedHandler store1 s sid now =
      GetSubscriptionsFeedHandler store2 s sid now := by
  simp only [GetSubscriptionsFeedHandler, runFeedQueries, h1, h2, h3]

/-- C9 witness: two runs against stores with identical contents on the
three queried partitions (one differing on an unrelated key) give the
same feed. -/
theorem C9_idempotent_witness :
    GetSubscriptionsFeedHandler (fun k => [Except.ok [⟨k, "r", "u1"⟩]])
      "2021-05-01" "svc" 1619913600000 =
      GetSubscriptionsFeedHandler
        (fun k => if k = "other" then [] else [Except.ok [⟨k, "r", "u1"⟩]])
        "2021-05-01" "svc" 1619913600000 :=
  C9_idempotent_on_fixed_store (fun k => [Except.ok [⟨k, "r", "u1"⟩]])
    (fun k => if k = "other" then [] else [Except.ok [⟨k, "r", "u1"⟩]])
    "2021-05-01" "svc" 1619913600000 (by decide) (by decide) (by decide)

/-- C10: the unsubscriptions output is independent of the subscribe-event
stream — two successful runs against stores agreeing on the
profile-creation and unsubscribe partitions (the subscribe partition
arbitrary) report the same unsubscriptions. -/
theorem C10_unsubscriptions_independent_of_sub_stream
    (store1 store2 : Store) (s sid : String) (now : Int)
    (f1 f2 : SubscriptionsFeed)
    (h1 : store1 (profileSubscriptionsKey s) = store2 (profileSubscriptionsKey s))
    (h3 : store1 (serviceUnsubscriptionsKey s sid) = store2 (serviceUnsubscriptionsKey s sid))
    (r1 : (GetSubscriptionsFeedHandler store1 s sid now).1 = HandlerResponse.success f1)
    (r2 : (GetSubscriptionsFeedHandler store2 s sid now).1 = HandlerResponse.success f2) :
    f1.unsubscriptions = f2.unsubscriptions := by
  simp only [GetSubscriptionsFeedHandler] at r1 r2
  rcases hca : checkAvailable s now with a | u
  · rw [hca] at r1
    simp at r1
  · cases u
    rw [hca] at r1 r2
    simp only [runFeedQueries] at r1 r2
    rcases hp : queryUsers (store1 (profileSubscriptionsKey s)) with ep | ps
    · rw [hp] at r1
      simp at r1
    · rw [hp] at r1
      rw [h1] at hp
      rw [hp] at r2
      rcases hs1 : queryUsers (store1 (serviceSubscriptionsKey s sid)) with es | s1
      · rw [hs1] at r1
        simp at r1
      · rw [hs1] at r1
        rcases hs2 : queryUsers (store2 (serviceSubscriptionsKey s sid)) with es2 | s2
        · rw [hs2] at r2
          simp at r2
        · rw [hs2] at r2
          rcases hu : queryUsers (store1 (serviceUnsubscriptionsKey s sid)) with eu | us
          · rw [hu] at r1
            simp at r1
          · rw [hu] at r1
            rw [h3] at hu
            rw [hu] at r2
            simp only [HandlerResponse.success.injEq] at r1 r2
            rw [← r1, ← r2]

/-- C10 witness: two stores identical on the profile and unsubscribe
partitions but with different subscribe partitions produce feeds with the
same unsubscriptions. -/
theorem C10_independence_witness :
    (⟨"2021-05-01", ["u1", "u2"], ["u3"]⟩ : SubscriptionsFeed).unsubscriptions =
      (⟨"2021-05-01", ["u1"], ["u3"]⟩ : SubscriptionsFeed).unsubscriptions :=
  C10_unsubscriptions_independent_of_sub_stream
    (fun k =>
      if k = serviceSubscriptionsKey "2021-05-01" "svc" then [Except.ok [⟨k, "r", "u2"⟩]]
      else if k = serviceUnsubscriptionsKey "2021-05-01" "svc" then [Except.ok [⟨k, "r", "u3"⟩]]
      else [Except.ok [⟨k, "r", "u1"⟩]])
    (fun k =>
      if k = serviceSubscriptionsKey "2021-05-01" "svc" then [Except.ok []]
      else if k = serviceUnsubscriptionsKey "2021-05-01" "svc" then [Except.ok [⟨k, "r", "u3"⟩]]
      else [Except.ok [⟨k, "r", "u1"⟩]])
    "2021-05-01" "svc" 1619913600000 ⟨"2021-05-01", ["u1", "u2"], ["u3"]⟩
    ⟨"2021-05-01", ["u1"], ["u3"]⟩
    (by decide) (by decide) (by decide) (by decide)

end SubscriptionsFeedSpec
